import Mathlib

/-!
Verification development for the agentic food-analysis pipeline
(`agentic_food_analysis.py`).

The embedding models:
- the JSON values the pipeline exchanges and Python's `json.loads`
  (restricted to the JSON fragment the pipeline exchanges: `\u` string
  escapes are not modelled, and number syntax is slightly more lenient
  than Python's about leading zeroes);
- the structured-extraction heuristic used by every stage
  (`response.find('{')` / `response.rfind('}')` / Python slicing /
  `json.loads`, with a caller-supplied fallback on failure);
- the typed records (`NutritionData`, `FoodItem`, `HealthRecommendation`,
  `MealSuggestion`, `AnalysisResult`), with Python floats modelled as
  exact rationals and `datetime` timestamps elided (they carry no logic);
- the verification stage (`_verify_nutrition_values`,
  `_verify_recommendations`, `_suggest_improvements`, `verify_analysis`),
  with the distinct issue strings of the source modelled as constructors
  of an `Issue` inductive and the presentation-only `summary` f-string
  elided;
- the orchestrator `analyze_food_image`, as a function of the four raw
  generation-service outcomes (each either a transport/response error or
  a raw response text), producing the coordination log and either the
  final `AnalysisResult` or the propagated error.

Dynamic-typing caveat recorded once here: the Python dataclass
constructors store field values untyped; a payload with the right keys
but an ill-typed value (say `"protein": "x"`) constructs fine, the
stage returns it without fallback, and the run crashes only later, in
verification, with that error propagating to the caller.  The ℚ-typed
records of this file cannot represent such a state, so the mapping
functions (`jsonToNutritionData`, `jsonToHealthRec`,
`jsonToMealSuggestion`, `jsonToFoodItem`) reject it at mapping time
instead — a documented deviation from the source on exactly that
boundary.  No theorem below leans on it: each theorem's support either
stays on the parse-failure paths, which never reach these functions,
or exercises them on well-typed payloads only (the fallback plan, the
explicit counterexample inputs).
-/

namespace FoodAnalysis

/-- JSON values as produced by `json.loads`: objects keep their member
order (with Python-dict semantics modelled in `objLookup`: a duplicated
key denotes its last binding). -/
inductive Json where
  | null
  | bool (b : Bool)
  | num (q : ℚ)
  | str (s : List Char)
  | arr (elems : List Json)
  | obj (members : List (List Char × Json))

/-- Whitespace skipping of the JSON grammar. -/
def skipWs : List Char → List Char
  | c :: cs => if c = ' ' ∨ c = '\t' ∨ c = '\n' ∨ c = '\r' then skipWs cs else c :: cs
  | [] => []

/-- Single-character JSON string escapes (`\uXXXX` escapes are outside
the modelled fragment): the three self-escaping characters, then the
named control characters of the grammar. -/
def escapeChar (c : Char) : Option Char :=
  if c = '"' ∨ c = '\\' ∨ c = '/' then some c
  else if c = 'n' then some '\n'
  else if c = 't' then some '\t'
  else if c = 'r' then some '\r'
  else if c = 'b' then some (Char.ofNat 8)
  else if c = 'f' then some (Char.ofNat 12)
  else none

/-- Body of a JSON string literal, after the opening quote: returns the
decoded characters and the input past the closing quote. -/
def parseStringBody : List Char → Option (List Char × List Char)
  | [] => none
  | '"' :: rest => some ([], rest)
  | '\\' :: [] => none
  | '\\' :: c :: rest =>
    match escapeChar c with
    | none => none
    | some ec =>
      match parseStringBody rest with
      | none => none
      | some (s, r) => some (ec :: s, r)
  | c :: rest =>
    match parseStringBody rest with
    | none => none
    | some (s, r) => some (c :: s, r)

/-- Longest digit run at the head of the input, and the remainder. -/
def spanDigits : List Char → List Char × List Char
  | [] => ([], [])
  | c :: cs =>
    if c.isDigit then
      let (d, r) := spanDigits cs
      (c :: d, r)
    else ([], c :: cs)

/-- Value of a digit run. -/
def digitsToNat (ds : List Char) : ℕ :=
  ds.foldl (fun a c => a * 10 + (c.toNat - '0'.toNat)) 0

/-- Exponent part of a JSON number, after the `e`/`E`. -/
def parseExpTail (r : List Char) : Option (ℤ × List Char) :=
  let (esign, r1) : Bool × List Char :=
    match r with
    | '+' :: t => (false, t)
    | '-' :: t => (true, t)
    | _ => (false, r)
  let (eDs, r2) := spanDigits r1
  if eDs.isEmpty then none
  else some ((if esign then -(digitsToNat eDs : ℤ) else (digitsToNat eDs : ℤ)), r2)

/-- JSON number: optional minus, integer digits, optional fraction,
optional exponent, as an exact rational. -/
def parseNumber (input : List Char) : Option (ℚ × List Char) :=
  let (neg, r0) : Bool × List Char :=
    match input with
    | '-' :: r => (true, r)
    | _ => (false, input)
  let (intDs, r1) := spanDigits r0
  if intDs.isEmpty then none
  else
    let afterFrac : Option (List Char × List Char) :=
      match r1 with
      | '.' :: r =>
        let (ds, r2) := spanDigits r
        if ds.isEmpty then none else some (ds, r2)
      | _ => some ([], r1)
    match afterFrac with
    | none => none
    | some (fracDs, r2) =>
      let afterExp : Option (ℤ × List Char) :=
        match r2 with
        | 'e' :: r => parseExpTail r
        | 'E' :: r => parseExpTail r
        | _ => some (0, r2)
      match afterExp with
      | none => none
      | some (e, r3) =>
        let mant : ℚ :=
          (digitsToNat intDs : ℚ) + (digitsToNat fracDs : ℚ) / (10 : ℚ) ^ fracDs.length
        some ((if neg then -mant else mant) * (10 : ℚ) ^ e, r3)

mutual

/-- Recursive-descent JSON value; the fuel only bounds nesting, the
grammar itself is that of `json.loads`. -/
def parseValue : ℕ → List Char → Option (Json × List Char)
  | 0, _ => none
  | fuel + 1, input =>
    match skipWs input with
    | [] => none
    | '{' :: rest => parseObjTail fuel rest
    | '[' :: rest => parseArrTail fuel rest
    | '"' :: rest =>
      match parseStringBody rest with
      | some (s, r) => some (Json.str s, r)
      | none => none
    | 't' :: 'r' :: 'u' :: 'e' :: r => some (Json.bool true, r)
    | 'f' :: 'a' :: 'l' :: 's' :: 'e' :: r => some (Json.bool false, r)
    | 'n' :: 'u' :: 'l' :: 'l' :: r => some (Json.null, r)
    | other =>
      match parseNumber other with
      | some (q, r) => some (Json.num q, r)
      | none => none

/-- Object members after the opening brace. -/
def parseObjTail : ℕ → List Char → Option (Json × List Char)
  | 0, _ => none
  | fuel + 1, input =>
    match skipWs input with
    | '}' :: r => some (Json.obj [], r)
    | other =>
      match parseMember fuel other with
      | none => none
      | some (m, r) => parseObjLoop fuel [m] r

/-- Remaining object members after the first. -/
def parseObjLoop : ℕ → List (List Char × Json) → List Char → Option (Json × List Char)
  | 0, _, _ => none
  | fuel + 1, acc, input =>
    match skipWs input with
    | ',' :: r =>
      match parseMember fuel r with
      | none => none
      | some (m, r1) => parseObjLoop fuel (acc ++ [m]) r1
    | '}' :: r => some (Json.obj acc, r)
    | _ => none

/-- One `"key": value` member. -/
def parseMember : ℕ → List Char → Option ((List Char × Json) × List Char)
  | 0, _ => none
  | fuel + 1, input =>
    match skipWs input with
    | '"' :: rest =>
      match parseStringBody rest with
      | none => none
      | some (k, r) =>
        match skipWs r with
        | ':' :: r1 =>
          match parseValue fuel r1 with
          | none => none
          | some (v, r2) => some ((k, v), r2)
        | _ => none
    | _ => none

/-- Array elements after the opening bracket. -/
def parseArrTail : ℕ → List Char → Option (Json × List Char)
  | 0, _ => none
  | fuel + 1, input =>
    match skipWs input with
    | ']' :: r => some (Json.arr [], r)
    | other =>
      match parseValue fuel other with
      | none => none
      | some (v, r) => parseArrLoop fuel [v] r

/-- Remaining array elements after the first. -/
def parseArrLoop : ℕ → List Json → List Char → Option (Json × List Char)
  | 0, _, _ => none
  | fuel + 1, acc, input =>
    match skipWs input with
    | ',' :: r =>
      match parseValue fuel r with
      | none => none
      | some (v, r1) => parseArrLoop fuel (acc ++ [v]) r1
    | ']' :: r => some (Json.arr acc, r)
    | _ => none

end

/-- Python's `json.loads`: parse one value and require only whitespace
after it.  The fuel `2 * length + 2` dominates any possible nesting
depth of the input. -/
def json_loads (s : List Char) : Option Json :=
  match parseValue (2 * s.length + 2) s with
  | some (v, rest) => if skipWs rest = [] then some v else none
  | none => none

/-- Python's `str.find` for a single character: first index, `-1` when
absent.  Auxiliary `Option`-valued form. -/
def pyFindAux : List Char → Char → Option ℕ
  | [], _ => none
  | c :: cs, target => if c = target then some 0 else (pyFindAux cs target).map (· + 1)

/-- Python's `str.find` for a single character. -/
def pyFind (s : List Char) (c : Char) : ℤ :=
  match pyFindAux s c with
  | some i => (i : ℤ)
  | none => -1

/-- Python's `str.rfind` for a single character: last index, `-1` when
absent. -/
def pyRfind (s : List Char) (c : Char) : ℤ :=
  match pyFindAux s.reverse c with
  | some i => (s.length : ℤ) - 1 - (i : ℤ)
  | none => -1

/-- Python's `s[a:b]` slice (step 1): negative indices count from the
end, then both bounds are clamped to `[0, len]`. -/
def pySlice (s : List Char) (a b : ℤ) : List Char :=
  let n : ℤ := s.length
  let a1 : ℤ := if a < 0 then max (a + n) 0 else min a n
  let b1 : ℤ := if b < 0 then max (b + n) 0 else min b n
  (s.take b1.toNat).drop a1.toNat

/-- The substring the object-expecting stages feed to `json.loads`:
`response[response.find('{') : response.rfind('}') + 1]`. -/
def objectSlice (response : List Char) : List Char :=
  pySlice response (pyFind response '{') (pyRfind response '}' + 1)

/-- The substring the array-expecting stages feed to `json.loads`:
`response[response.find('[') : response.rfind(']') + 1]`. -/
def arraySlice (response : List Char) : List Char :=
  pySlice response (pyFind response '[') (pyRfind response ']' + 1)

/-- Structured extraction with fallback, as each object-expecting stage
performs it: slice between the first `{` and the last `}`, parse, and
on failure return the caller-supplied fallback flagging `usedFallback`. -/
def extract (response : List Char) (fallback : Json) : Json × Bool :=
  match json_loads (objectSlice response) with
  | some v => (v, false)
  | none => (fallback, true)

/-- Python's `abs` on a number. -/
def pyAbs (q : ℚ) : ℚ := if q < 0 then -q else q

/-- Dataclass `NutritionData`: the eleven numeric nutrient fields, with
Python floats as exact rationals. -/
structure NutritionData where
  protein : ℚ
  carbohydrates : ℚ
  fats : ℚ
  fiber : ℚ
  calories : ℚ
  sodium : ℚ
  sugar : ℚ
  cholesterol : ℚ
  vitamin_c : ℚ
  calcium : ℚ
  iron : ℚ
deriving DecidableEq

/-- Dataclass `FoodItem`.  The source stores `portion_size` as the
rendered string `f"{estimated_weight}g"`; the model keeps the numeric
weight there, the `g` suffix being presentation-only. -/
structure FoodItem where
  name : List Char
  category : List Char
  portion_size : ℚ
  confidence : ℚ
  preparation_method : List Char
  estimated_weight : ℚ
deriving DecidableEq

/-- Dataclass `HealthRecommendation`. -/
structure HealthRecommendation where
  category : List Char
  message : List Char
  priority : List Char
  reasoning : List Char
deriving DecidableEq

/-- Dataclass `MealSuggestion`. -/
structure MealSuggestion where
  food_name : List Char
  category : List Char
  reason : List Char
  nutritional_benefit : List Char
deriving DecidableEq

/-- Exceptions the modelled pipeline can raise: the generic
`Exception` raised by `call_llm` on a non-200 status (transport/response
error), and the `KeyError`/`TypeError` of Python subscripting and
dataclass construction. -/
inductive PyError where
  | apiError (status : ℕ) (body : List Char)
  | keyError (key : List Char)
  | typeError
deriving DecidableEq

/-- Coordination-log entries, one constructor per `self._log` call of
the orchestrator, with the wall-clock timestamp prefix elided. -/
inductive LogEntry where
  | planningStep
  | nutritionStep
  | healthStep
  | mealPlanningStep
  | verificationStep
  | completed (finalConfidence : ℚ)
  | workflowError (e : PyError)
deriving DecidableEq

/-- Dataclass `AnalysisResult`, with the `datetime` timestamp elided
(it carries no logic). -/
structure AnalysisResult where
  food_items : List FoodItem
  nutrition : NutritionData
  health_recommendations : List HealthRecommendation
  meal_suggestions : List MealSuggestion
  confidence_score : ℚ
  agent_coordination_log : List LogEntry
deriving DecidableEq

/-- The distinct issue strings the verification checks can append, one
constructor per `issues.append(...)` site:
`negativeMacros` = "Negative macronutrient values detected",
`calorieMismatch s c` = `f"Calorie calculation mismatch: {s} vs {c}"`,
`highSodium` = "Very high sodium content detected",
`noRecommendations` = "No health recommendations provided",
`sodiumNotAddressed` = "High sodium not addressed in recommendations",
`fiberNotAddressed` = "Low fiber not addressed in recommendations". -/
inductive Issue where
  | negativeMacros
  | calorieMismatch (stored calculated : ℚ)
  | highSodium
  | noRecommendations
  | sodiumNotAddressed
  | fiberNotAddressed
deriving DecidableEq

/-- Whether an issue is the calorie-mismatch one. -/
def Issue.isCalorieMismatch : Issue → Bool
  | .calorieMismatch _ _ => true
  | _ => false

/-- The `status` field of a check: "PASS" or "WARNINGS". -/
inductive Status where
  | PASS
  | WARNINGS
deriving DecidableEq

/-- The `{'confidence': _, 'status': _, 'issues': _}` dict each
verification check returns. -/
structure CheckResult where
  confidence : ℚ
  status : Status
  issues : List Issue
deriving DecidableEq

/-- The improvement suggestions of `_suggest_improvements`, one
constructor per `suggestions.append(...)` site. -/
inductive Improvement where
  | clearerImages
  | moreRecommendations
  | includeMealSuggestions
deriving DecidableEq

/-- The dict `verify_analysis` returns, with the presentation-only
`summary` f-string elided. -/
structure VerificationOutcome where
  verified : Bool
  confidence : ℚ
  issues : List Issue
  recommendations_for_improvement : List Improvement
deriving DecidableEq

/-- `VerificationAgent._verify_nutrition_values` (lines 451-471):
negative-macro check, calorie-consistency check against
`4*protein + 4*carbohydrates + 9*fats` with a 50 kcal tolerance,
extreme-sodium check above 2000 mg; confidence 0.9 without issues,
0.6 with. -/
def verify_nutrition_values (nutrition : NutritionData) : CheckResult :=
  let issues0 : List Issue :=
    if nutrition.protein < 0 ∨ nutrition.carbohydrates < 0 ∨ nutrition.fats < 0 then
      [Issue.negativeMacros]
    else []
  let calculated_calories : ℚ :=
    nutrition.protein * 4 + nutrition.carbohydrates * 4 + nutrition.fats * 9
  let issues1 : List Issue :=
    issues0 ++
      (if pyAbs (nutrition.calories - calculated_calories) > 50 then
        [Issue.calorieMismatch nutrition.calories calculated_calories]
      else [])
  let issues : List Issue :=
    issues1 ++ (if nutrition.sodium > 2000 then [Issue.highSodium] else [])
  { confidence := if issues = [] then 0.9 else 0.6,
    status := if issues = [] then Status.PASS else Status.WARNINGS,
    issues := issues }

/-- Whether `small` occurs as a contiguous substring of `hay`
(Python's `small in hay` on strings). -/
def containsSubstr : List Char → List Char → Bool
  | [], small => small.isEmpty
  | h :: t, small => small.isPrefixOf (h :: t) || containsSubstr t small

/-- Python's `str.lower()`, on the ASCII fragment the checks use. -/
def lowerList (s : List Char) : List Char := s.map Char.toLower

/-- The characters of "sodium". -/
def sodiumChars : List Char := ['s', 'o', 'd', 'i', 'u', 'm']

/-- The characters of "fiber". -/
def fiberChars : List Char := ['f', 'i', 'b', 'e', 'r']

/-- `VerificationAgent._verify_recommendations` (lines 473-497):
empty-list check, and the sodium-above-800 / fiber-below-5 relevance
checks against case-insensitive substring mentions in the
recommendation messages; confidence 0.8 without issues, 0.5 with. -/
def verify_recommendations (recommendations : List HealthRecommendation)
    (nutrition : NutritionData) : CheckResult :=
  let issues0 : List Issue :=
    if recommendations = [] then [Issue.noRecommendations] else []
  let high_sodium : Bool := decide (nutrition.sodium > 800)
  let low_fiber : Bool := decide (nutrition.fiber < 5)
  let sodium_addressed : Bool :=
    recommendations.any (fun r => containsSubstr (lowerList r.message) sodiumChars)
  let fiber_addressed : Bool :=
    recommendations.any (fun r => containsSubstr (lowerList r.message) fiberChars)
  let issues1 : List Issue :=
    issues0 ++ (if high_sodium && !sodium_addressed then [Issue.sodiumNotAddressed] else [])
  let issues : List Issue :=
    issues1 ++ (if low_fiber && !fiber_addressed then [Issue.fiberNotAddressed] else [])
  { confidence := if issues = [] then 0.8 else 0.5,
    status := if issues = [] then Status.PASS else Status.WARNINGS,
    issues := issues }

/-- `VerificationAgent._suggest_improvements` (lines 499-512). -/
def suggest_improvements (result : AnalysisResult) : List Improvement :=
  (if result.confidence_score < 0.8 then [Improvement.clearerImages] else [])
    ++ (if result.health_recommendations.length < 3 then [Improvement.moreRecommendations] else [])
    ++ (if result.meal_suggestions = [] then [Improvement.includeMealSuggestions] else [])

/-- `VerificationAgent.verify_analysis` (lines 415-449): run the two
checks, average their confidences with the result's pre-verification
confidence score (three unweighted terms), and test the strict 0.7
threshold. -/
def verify_analysis (result : AnalysisResult) : VerificationOutcome :=
  let nutrition_check := verify_nutrition_values result.nutrition
  let recommendation_check :=
    verify_recommendations result.health_recommendations result.nutrition
  let confidence_factors : List ℚ :=
    [nutrition_check.confidence, recommendation_check.confidence, result.confidence_score]
  let overall_confidence : ℚ := confidence_factors.sum / (confidence_factors.length : ℚ)
  { verified := decide (overall_confidence > 0.7),
    confidence := overall_confidence,
    issues := nutrition_check.issues ++ recommendation_check.issues,
    recommendations_for_improvement := suggest_improvements result }

/-- Lookup in a parsed JSON object with Python-dict semantics: a key
duplicated by the payload denotes its last binding. -/
def objLookup (kvs : List (List Char × Json)) (k : List Char) : Option Json :=
  (kvs.reverse.find? (fun p => p.1 == k)).map Prod.snd

/-- Python `d[key]` on a parsed value: `KeyError` when the key is
absent, `TypeError` when the value is not an object. -/
def dictGet (v : Json) (k : List Char) : Except PyError Json :=
  match v with
  | Json.obj kvs =>
    match objLookup kvs k with
    | some x => Except.ok x
    | none => Except.error (PyError.keyError k)
  | _ => Except.error PyError.typeError

/-- Numeric member of a parsed object. -/
def numField (kvs : List (List Char × Json)) (k : List Char) : Option ℚ :=
  match objLookup kvs k with
  | some (Json.num q) => some q
  | _ => none

/-- String member of a parsed object. -/
def strField (kvs : List (List Char × Json)) (k : List Char) : Option (List Char) :=
  match objLookup kvs k with
  | some (Json.str s) => some s
  | _ => none

/-- List version of `Option` traversal with explicit equations. -/
def mapOptionList (f : α → Option β) : List α → Option (List β)
  | [] => some []
  | x :: xs =>
    match f x with
    | none => none
    | some y => (mapOptionList f xs).map (y :: ·)

/-- List version of `Except` traversal with explicit equations. -/
def mapExceptList (f : α → Except PyError β) : List α → Except PyError (List β)
  | [] => Except.ok []
  | x :: xs =>
    match f x with
    | Except.error e => Except.error e
    | Except.ok y =>
      match mapExceptList f xs with
      | Except.error e => Except.error e
      | Except.ok ys => Except.ok (y :: ys)

/-- The eleven field names of `NutritionData`. -/
def nutritionFieldNames : List (List Char) :=
  ["protein".toList, "carbohydrates".toList, "fats".toList, "fiber".toList,
   "calories".toList, "sodium".toList, "sugar".toList, "cholesterol".toList,
   "vitamin_c".toList, "calcium".toList, "iron".toList]

/-- `NutritionData(**nutrition_data)`: the key-set part is faithful —
an extra or a missing keyword raises `TypeError`, which the stage
catches.  The numeric-value requirement is a typed-model restriction:
the source dataclass stores an ill-typed value unchecked and the run
crashes only later, in verification, with the error propagating; the
ℚ-typed record cannot represent that state, so this function returns
`none` there instead.  No theorem in this file leans on that boundary:
every theorem either stays on the parse-failure paths that never reach
this function, or applies it to well-typed payloads only. -/
def jsonToNutritionData : Json → Option NutritionData
  | Json.obj kvs =>
    if kvs.all (fun p => nutritionFieldNames.contains p.1) then
      match numField kvs "protein".toList, numField kvs "carbohydrates".toList,
          numField kvs "fats".toList, numField kvs "fiber".toList,
          numField kvs "calories".toList, numField kvs "sodium".toList,
          numField kvs "sugar".toList, numField kvs "cholesterol".toList,
          numField kvs "vitamin_c".toList, numField kvs "calcium".toList,
          numField kvs "iron".toList with
      | some protein, some carbohydrates, some fats, some fiber, some calories,
          some sodium, some sugar, some cholesterol, some vitamin_c, some calcium,
          some iron =>
        some ⟨protein, carbohydrates, fats, fiber, calories, sodium, sugar,
          cholesterol, vitamin_c, calcium, iron⟩
      | _, _, _, _, _, _, _, _, _, _, _ => none
    else none
  | _ => none

/-- The four field names of `HealthRecommendation`. -/
def healthRecFieldNames : List (List Char) :=
  ["category".toList, "message".toList, "priority".toList, "reasoning".toList]

/-- `HealthRecommendation(**rec)`: the key-set part is faithful (wrong
keys raise `TypeError`, caught by the stage).  The string-value
requirement is a typed-model restriction: the source stores an
ill-typed value unchecked and crashes only later, at
`rec.message.lower()` in verification, propagating; no theorem relies
on this arm (see `jsonToNutritionData`). -/
def jsonToHealthRec : Json → Option HealthRecommendation
  | Json.obj kvs =>
    if kvs.all (fun p => healthRecFieldNames.contains p.1) then
      match strField kvs "category".toList, strField kvs "message".toList,
          strField kvs "priority".toList, strField kvs "reasoning".toList with
      | some c, some m, some p, some r => some ⟨c, m, p, r⟩
      | _, _, _, _ => none
    else none
  | _ => none

/-- The four field names of `MealSuggestion`. -/
def mealFieldNames : List (List Char) :=
  ["food_name".toList, "category".toList, "reason".toList, "nutritional_benefit".toList]

/-- `MealSuggestion(**suggestion)`: the key-set part is faithful (wrong
keys raise `TypeError`, caught by the stage).  The string-value
requirement is a typed-model restriction as in `jsonToHealthRec` (a
`MealSuggestion` field is never read back, so an ill-typed value would
in fact ride along harmlessly in the source); no theorem relies on
this arm. -/
def jsonToMealSuggestion : Json → Option MealSuggestion
  | Json.obj kvs =>
    if kvs.all (fun p => mealFieldNames.contains p.1) then
      match strField kvs "food_name".toList, strField kvs "category".toList,
          strField kvs "reason".toList, strField kvs "nutritional_benefit".toList with
      | some f, some c, some r, some b => some ⟨f, c, r, b⟩
      | _, _, _, _ => none
    else none
  | _ => none

/-- The fallback plan of `PlanningAgent.analyze_image_and_plan`
(lines 191-197). -/
def planningFallbackJson : Json :=
  Json.obj [
    ("food_items".toList, Json.arr [Json.obj [
      ("name".toList, Json.str "unknown_food".toList),
      ("category".toList, Json.str "mixed".toList),
      ("estimated_weight".toList, Json.num 150),
      ("preparation".toList, Json.str "unknown".toList),
      ("confidence".toList, Json.num 0.5)]]),
    ("complexity".toList, Json.str "moderate".toList),
    ("analysis_focus".toList, Json.arr [Json.str "nutrition".toList, Json.str "health".toList]),
    ("special_considerations".toList, Json.arr []),
    ("recommended_agents".toList,
      Json.arr [Json.str "nutrition".toList, Json.str "health".toList,
        Json.str "verification".toList])]

/-- The fallback record of `NutritionAgent.analyze_nutrition`
(lines 257-261). -/
def nutritionFallback : NutritionData :=
  ⟨20, 30, 15, 5, 300, 500, 5, 50, 10, 100, 2.5⟩

/-- The fallback list of `HealthAgent.generate_recommendations`
(lines 333-340). -/
def healthFallback : List HealthRecommendation :=
  [⟨"nutrient_balance".toList,
    "Consider adding more vegetables to increase fiber and micronutrients.".toList,
    "medium".toList,
    "Current fiber content could be higher for optimal digestive health.".toList⟩]

/-- The fallback list of `MealPlanningAgent.suggest_complementary_foods`
(lines 399-406). -/
def mealFallback : List MealSuggestion :=
  [⟨"Mixed green salad".toList, "vegetable".toList,
    "Adds fiber and micronutrients".toList,
    "Vitamins A, C, K and folate".toList⟩]

/-- `PlanningAgent.analyze_image_and_plan` past the generation call
(lines 180-197): object slice, parse, fallback plan on parse failure.
No shape check is performed on a successful parse. -/
def analyze_image_and_plan (response : List Char) : Json × Bool :=
  extract response planningFallbackJson

/-- `NutritionAgent.analyze_nutrition` past the generation call
(lines 247-261): object slice, parse, `NutritionData(**d)`, fallback
record on parse failure or `TypeError`. -/
def analyze_nutrition (response : List Char) : NutritionData × Bool :=
  match json_loads (objectSlice response) with
  | some v =>
    match jsonToNutritionData v with
    | some nd => (nd, false)
    | none => (nutritionFallback, true)
  | none => (nutritionFallback, true)

/-- `HealthAgent.generate_recommendations` past the generation call
(lines 323-340): array slice, parse, per-element
`HealthRecommendation(**rec)`, fallback list on any failure. -/
def generate_recommendations (response : List Char) : List HealthRecommendation × Bool :=
  match json_loads (arraySlice response) with
  | some (Json.arr elems) =>
    match mapOptionList jsonToHealthRec elems with
    | some recs => (recs, false)
    | none => (healthFallback, true)
  | _ => (healthFallback, true)

/-- `MealPlanningAgent.suggest_complementary_foods` past the generation
call (lines 389-406): array slice, parse, per-element
`MealSuggestion(**s)`, fallback list on any failure. -/
def suggest_complementary_foods (response : List Char) : List MealSuggestion × Bool :=
  match json_loads (arraySlice response) with
  | some (Json.arr elems) =>
    match mapOptionList jsonToMealSuggestion elems with
    | some suggestions => (suggestions, false)
    | none => (mealFallback, true)
  | _ => (mealFallback, true)

/-- The orchestrator's `FoodItem` construction from one entry of
`plan['food_items']` (lines 540-547): each subscript raises `KeyError`
when the key is absent — that part is faithful and is all the
counterexamples use.  The final str/num value requirement is a
typed-model restriction: the source constructs the `FoodItem` with
whatever values the payload holds and errors, if at all, only later
(at `sum(confidence_scores)` for a non-numeric confidence), so on
ill-typed items the model signals `typeError` earlier than the source
would; no theorem relies on that arm. -/
def jsonToFoodItem (item : Json) : Except PyError FoodItem := do
  let nameV ← dictGet item "name".toList
  let categoryV ← dictGet item "category".toList
  let weightV ← dictGet item "estimated_weight".toList
  let confV ← dictGet item "confidence".toList
  let prepV ← dictGet item "preparation".toList
  match nameV, categoryV, weightV, confV, prepV with
  | Json.str nm, Json.str cat, Json.num w, Json.num cf, Json.str pr =>
    Except.ok ⟨nm, cat, w, cf, pr, w⟩
  | _, _, _, _, _ => Except.error PyError.typeError

/-- The orchestrator's list comprehension over `plan['food_items']`
(lines 540-547): `KeyError` when the plan lacks the key, `TypeError`
when the member is not a list. -/
def buildFoodItems (plan : Json) : Except PyError (List FoodItem) := do
  let itemsV ← dictGet plan "food_items".toList
  match itemsV with
  | Json.arr items => mapExceptList jsonToFoodItem items
  | _ => Except.error PyError.typeError

/-- The food items the orchestrator builds from the fallback plan. -/
def planningFallbackItems : List FoodItem :=
  [⟨"unknown_food".toList, "mixed".toList, 150, 0.5, "unknown".toList, 150⟩]

/-- The orchestrator's pre-verification aggregate confidence
(lines 566-567): mean of the per-item confidences, 0.5 for an empty
list. -/
def preVerificationConfidence (food_items : List FoodItem) : ℚ :=
  let confidence_scores := food_items.map (fun item => item.confidence)
  if confidence_scores = [] then 0.5
  else confidence_scores.sum / (confidence_scores.length : ℚ)

/-- `AgenticWorkflowOrchestrator.analyze_food_image` (lines 529-604),
as a function of the four generation-service outcomes (transport/
response error, or raw response text).  The stage transforms and the
verification stage are the pure functions above; the `try`/`except`
wrapper appends one error entry to the coordination log and re-raises.
Returns the final coordination log and either the complete
`AnalysisResult` or the propagated error. -/
def analyze_food_image (planningResp nutritionResp healthResp mealResp :
    Except PyError (List Char)) : List LogEntry × Except PyError AnalysisResult :=
  let log0 : List LogEntry := [LogEntry.planningStep]
  match planningResp with
  | Except.error e => (log0 ++ [LogEntry.workflowError e], Except.error e)
  | Except.ok ptext =>
    let plan := (analyze_image_and_plan ptext).1
    match buildFoodItems plan with
    | Except.error e => (log0 ++ [LogEntry.workflowError e], Except.error e)
    | Except.ok food_items =>
      let log1 := log0 ++ [LogEntry.nutritionStep]
      match nutritionResp with
      | Except.error e => (log1 ++ [LogEntry.workflowError e], Except.error e)
      | Except.ok ntext =>
        let nutrition := (analyze_nutrition ntext).1
        let log2 := log1 ++ [LogEntry.healthStep]
        match healthResp with
        | Except.error e => (log2 ++ [LogEntry.workflowError e], Except.error e)
        | Except.ok htext =>
          let health_recommendations := (generate_recommendations htext).1
          let log3 := log2 ++ [LogEntry.mealPlanningStep]
          match mealResp with
          | Except.error e => (log3 ++ [LogEntry.workflowError e], Except.error e)
          | Except.ok mtext =>
            let meal_suggestions := (suggest_complementary_foods mtext).1
            let overall_confidence := preVerificationConfidence food_items
            let preliminary_result : AnalysisResult :=
              ⟨food_items, nutrition, health_recommendations, meal_suggestions,
                overall_confidence, log3⟩
            let log4 := log3 ++ [LogEntry.verificationStep]
            let verification := verify_analysis preliminary_result
            let final_confidence := (overall_confidence + verification.confidence) / 2
            let log5 := log4 ++ [LogEntry.completed final_confidence]
            (log5, Except.ok ⟨food_items, nutrition, health_recommendations,
              meal_suggestions, final_confidence, log5⟩)

/-! ### Helper lemmas -/

theorem pyFindAux_append (pre rest : List Char) (c : Char) (h : c ∉ pre) :
    pyFindAux (pre ++ c :: rest) c = some pre.length := by
  induction pre with
  | nil => simp [pyFindAux]
  | cons a t ih =>
    have ha : ¬a = c := fun h1 => h (by simp [h1])
    have ht : c ∉ t := fun hm => h (List.mem_cons_of_mem _ hm)
    simp [pyFindAux, ha, ih ht]

theorem pyFindAux_eq_none (l : List Char) (c : Char) (h : c ∉ l) :
    pyFindAux l c = none := by
  induction l with
  | nil => rfl
  | cons a t ih =>
    have ha : ¬a = c := fun h1 => h (by simp [h1])
    have ht : c ∉ t := fun hm => h (List.mem_cons_of_mem _ hm)
    simp [pyFindAux, ha, ih ht]

theorem json_loads_nil : json_loads ([] : List Char) = none := rfl

theorem objectSlice_embedded (pre s post : List Char)
    (hpre : '{' ∉ pre) (hpost : '}' ∉ post)
    (hhead : s.head? = some '{') (hlast : s.getLast? = some '}') :
    objectSlice (pre ++ s ++ post) = s := by
  obtain ⟨s1, hs1⟩ : ∃ s1, s = '{' :: s1 := by
    cases s with
    | nil => simp at hhead
    | cons a t =>
      simp only [List.head?_cons, Option.some.injEq] at hhead
      exact ⟨t, by rw [hhead]⟩
  obtain ⟨init, hinit⟩ := List.getLast?_eq_some_iff.1 hlast
  have hfind : pyFind (pre ++ s ++ post) '{' = (pre.length : ℤ) := by
    have : pre ++ s ++ post = pre ++ '{' :: (s1 ++ post) := by
      rw [hs1]; simp
    rw [this, pyFind, pyFindAux_append _ _ _ hpre]
  have hrfind : pyRfind (pre ++ s ++ post) '}' = (pre.length : ℤ) + s.length - 1 := by
    have hrev : (pre ++ s ++ post).reverse = post.reverse ++ '}' :: (init.reverse ++ pre.reverse) := by
      rw [hinit]; simp
    have hnp : '}' ∉ post.reverse := by simpa using hpost
    rw [pyRfind, hrev, pyFindAux_append _ _ _ hnp]
    simp only [List.length_append, List.length_reverse]
    push_cast
    omega
  have hslen : 1 ≤ s.length := by rw [hs1]; simp
  rw [objectSlice, hfind, hrfind, pySlice]
  have hb : (pre.length : ℤ) + s.length - 1 + 1 = (pre.length : ℤ) + s.length := by ring
  rw [hb]
  simp only [List.length_append]
  have ha1 : ¬((pre.length : ℤ) < 0) := by omega
  have hb1 : ¬((pre.length : ℤ) + s.length < 0) := by omega
  rw [if_neg ha1, if_neg hb1]
  have hmin1 : min ((pre.length : ℤ)) ((pre.length : ℤ) + s.length + post.length) = pre.length := by
    omega
  have hmin2 : min ((pre.length : ℤ) + s.length) ((pre.length : ℤ) + s.length + post.length) =
      (pre.length : ℤ) + s.length := by omega
  push_cast
  rw [hmin1, hmin2]
  have ht1 : ((pre.length : ℤ)).toNat = pre.length := by omega
  have ht2 : ((pre.length : ℤ) + s.length).toNat = pre.length + s.length := by omega
  rw [ht1, ht2]
  have htake : (pre ++ s ++ post).take (pre.length + s.length) = pre ++ s :=
    List.take_left' (by simp)
  rw [htake, List.drop_left]

theorem objectSlice_no_delims (t : List Char) (h1 : '{' ∉ t) (h2 : '}' ∉ t) :
    objectSlice t = [] := by
  have hf : pyFind t '{' = -1 := by rw [pyFind, pyFindAux_eq_none _ _ h1]
  have hr : pyRfind t '}' = -1 := by
    rw [pyRfind, pyFindAux_eq_none _ _ (by simpa using h2)]
  rw [objectSlice, hf, hr, pySlice]
  norm_num

/-! ### Claim theorems -/

/-- C7: for every text consisting of one well-formed JSON object — its
literal text starting at its opening `{` and ending at its closing
`}` — embedded between prose free of the delimiter characters, the
structured extractor returns the parsed object with
`usedFallback = false`; and for every text containing no `{` and no
`}`, it returns the caller-supplied fallback with
`usedFallback = true`. -/
theorem C7_structured_extractor :
    (∀ (pre s post : List Char) (kvs : List (List Char × Json)) (fallback : Json),
      '{' ∉ pre → '}' ∉ pre → '{' ∉ post → '}' ∉ post →
      s.head? = some '{' → s.getLast? = some '}' →
      json_loads s = some (Json.obj kvs) →
      extract (pre ++ s ++ post) fallback = (Json.obj kvs, false))
    ∧ (∀ (t : List Char) (fallback : Json), '{' ∉ t → '}' ∉ t →
      extract t fallback = (fallback, true)) := by
  constructor
  · intro pre s post kvs fallback hpre1 _ _ hpost2 hhead hlast hparse
    rw [extract, objectSlice_embedded pre s post hpre1 hpost2 hhead hlast, hparse]
  · intro t fallback h1 h2
    rw [extract, objectSlice_no_delims t h1 h2, json_loads_nil]

/-- Witness for C7 at concrete inputs: the object `{}` embedded in
`a{}b` is recovered without fallback, and the delimiter-free text `x`
yields the fallback. -/
theorem C7_structured_extractor_witness :
    extract (['a'] ++ ['{', '}'] ++ ['b']) Json.null = (Json.obj [], false)
    ∧ extract ['x'] Json.null = (Json.null, true) :=
  ⟨C7_structured_extractor.1 ['a'] ['{', '}'] ['b'] [] Json.null (by decide) (by decide)
      (by decide) (by decide) rfl rfl rfl,
    C7_structured_extractor.2 ['x'] Json.null (by decide) (by decide)⟩

/-- C1: the nutrition-consistency check flags its calorie-mismatch
issue iff the absolute difference between the stored calories and
`4*protein + 4*carbohydrates + 9*fats` strictly exceeds 50, and its
confidence is 0.9 when its issue list is empty and 0.6 otherwise. -/
theorem C1_nutrition_consistency (n : NutritionData) :
    ((verify_nutrition_values n).issues.any Issue.isCalorieMismatch = true ↔
      pyAbs (n.calories - (4 * n.protein + 4 * n.carbohydrates + 9 * n.fats)) > 50)
    ∧ (verify_nutrition_values n).confidence =
      (if (verify_nutrition_values n).issues = [] then 0.9 else 0.6) := by
  have hc : n.protein * 4 + n.carbohydrates * 4 + n.fats * 9 =
      4 * n.protein + 4 * n.carbohydrates + 9 * n.fats := by ring
  constructor
  · by_cases h1 : n.protein < 0 ∨ n.carbohydrates < 0 ∨ n.fats < 0 <;>
      by_cases h2 : pyAbs (n.calories - (4 * n.protein + 4 * n.carbohydrates + 9 * n.fats)) > 50 <;>
      by_cases h3 : n.sodium > 2000 <;>
      simp [verify_nutrition_values, h1, h2, h3, hc, Issue.isCalorieMismatch]
  · rfl

/-- C2: the verification stage's overall confidence is the unweighted
mean of the nutrition-check confidence, the recommendation-check
confidence and the result's pre-verification confidence score, and
`verified` holds iff that mean strictly exceeds 0.7. -/
theorem C2_overall_confidence (r : AnalysisResult) :
    (verify_analysis r).confidence =
      ((verify_nutrition_values r.nutrition).confidence +
        (verify_recommendations r.health_recommendations r.nutrition).confidence +
        r.confidence_score) / 3
    ∧ ((verify_analysis r).verified = true ↔ (verify_analysis r).confidence > 0.7) := by
  constructor
  · simp [verify_analysis]
    ring
  · simp [verify_analysis]

/-- C3: the orchestrator's pre-verification aggregate confidence is the
mean of the per-item confidences of the planning stage's food items,
and exactly 0.5 for an empty item list. -/
theorem C3_pre_verification_confidence (items : List FoodItem) :
    preVerificationConfidence items =
      if items = [] then 0.5
      else (items.map (fun item => item.confidence)).sum / (items.length : ℚ) := by
  by_cases h : items = []
  · simp [preVerificationConfidence, h]
  · simp [preVerificationConfidence, h]

/-- C6: the recommendation-relevance check flags an empty list, flags
sodium strictly above 800 mg when no recommendation message contains
"sodium" (case-insensitive), flags fiber strictly below 5 g when no
message contains "fiber", and its confidence is 0.8 without issues and
0.5 with. -/
theorem C6_recommendation_relevance (recs : List HealthRecommendation) (n : NutritionData) :
    (Issue.noRecommendations ∈ (verify_recommendations recs n).issues ↔ recs = [])
    ∧ (Issue.sodiumNotAddressed ∈ (verify_recommendations recs n).issues ↔
        (n.sodium > 800 ∧ ∀ r ∈ recs, containsSubstr (lowerList r.message) sodiumChars = false))
    ∧ (Issue.fiberNotAddressed ∈ (verify_recommendations recs n).issues ↔
        (n.fiber < 5 ∧ ∀ r ∈ recs, containsSubstr (lowerList r.message) fiberChars = false))
    ∧ (verify_recommendations recs n).confidence =
      (if (verify_recommendations recs n).issues = [] then 0.8 else 0.5) := by
  refine ⟨?_, ?_, ?_, rfl⟩ <;>
    by_cases h1 : recs = [] <;>
    by_cases h2 : n.sodium > 800 <;>
    by_cases h3 : recs.any (fun r => containsSubstr (lowerList r.message) sodiumChars) = true <;>
    by_cases h4 : n.fiber < 5 <;>
    by_cases h5 : recs.any (fun r => containsSubstr (lowerList r.message) fiberChars) = true <;>
    simp only [List.any_eq_true, not_exists, not_and, Bool.not_eq_true] at h3 h5 <;>
    simp [verify_recommendations, h1, h2, h3, h4, h5]

/-- C8 (amended): the verification stage reports the negative-value
issue exactly when protein, carbohydrates or fats is negative; negative
values in the other eight nutrient fields are not themselves reported
(and no error is ever raised). -/
theorem C8_amended_negative_macros (r : AnalysisResult) :
    Issue.negativeMacros ∈ (verify_analysis r).issues ↔
      (r.nutrition.protein < 0 ∨ r.nutrition.carbohydrates < 0 ∨ r.nutrition.fats < 0) := by
  have hrec : Issue.negativeMacros ∉
      (verify_recommendations r.health_recommendations r.nutrition).issues := by
    simp only [verify_recommendations, List.mem_append]
    split_ifs <;> simp
  have hnut : Issue.negativeMacros ∈ (verify_nutrition_values r.nutrition).issues ↔
      (r.nutrition.protein < 0 ∨ r.nutrition.carbohydrates < 0 ∨ r.nutrition.fats < 0) := by
    simp only [verify_nutrition_values, List.mem_append]
    split_ifs with h1 h2 h3 <;> simp [h1]
  simp [verify_analysis, List.mem_append, hrec, hnut]

/-- Counterexample to C8 as stated: a record whose `vitamin_c` is
negative on which the verification stage reports no issue at all. -/
def exC8Result : AnalysisResult :=
  ⟨[], ⟨20, 30, 15, 6, 335, 500, 5, 50, -5, 100, 2.5⟩, healthFallback, mealFallback, 0.8, []⟩

/-- C8 counterexample: the record of `exC8Result` has a negative
nutrient field (`vitamin_c = -5`) yet the verification stage's issue
list is empty. -/
theorem C8_counterexample :
    exC8Result.nutrition.vitamin_c < 0 ∧ (verify_analysis exC8Result).issues = [] := by
  constructor
  · norm_num [exC8Result]
  · norm_num [verify_analysis, verify_nutrition_values, verify_recommendations,
      exC8Result, pyAbs, healthFallback]

theorem analyze_nutrition_cases (resp : List Char) :
    analyze_nutrition resp = (nutritionFallback, true)
    ∨ (analyze_nutrition resp).2 = false := by
  rw [analyze_nutrition]
  cases json_loads (objectSlice resp) with
  | none => exact Or.inl rfl
  | some v =>
    dsimp only
    cases jsonToNutritionData v with
    | none => exact Or.inl rfl
    | some nd => exact Or.inr rfl

/-- C10: whenever the nutrition stage falls back, the substituted record
is the fixed fallback `NutritionData`, whose computed calories are 335,
and the nutrition-consistency check passes it with an empty issue list,
status PASS and confidence 0.9 — the fallback is invisible to
verification. -/
theorem C10_fallback_undetected (resp : List Char)
    (h : (analyze_nutrition resp).2 = true) :
    (analyze_nutrition resp).1 = nutritionFallback
    ∧ nutritionFallback.protein * 4 + nutritionFallback.carbohydrates * 4 +
        nutritionFallback.fats * 9 = 335
    ∧ pyAbs (nutritionFallback.calories - 335) ≤ 50
    ∧ verify_nutrition_values nutritionFallback = ⟨0.9, Status.PASS, []⟩ := by
  refine ⟨?_, by norm_num [nutritionFallback], by norm_num [nutritionFallback, pyAbs],
    by norm_num [verify_nutrition_values, nutritionFallback, pyAbs]⟩
  rcases analyze_nutrition_cases resp with hcase | hcase
  · rw [hcase]
  · rw [h] at hcase
    simp at hcase

/-- Witness for C10 at the concrete unparseable response `x`. -/
theorem C10_fallback_undetected_witness :
    (analyze_nutrition ['x']).1 = nutritionFallback
    ∧ nutritionFallback.protein * 4 + nutritionFallback.carbohydrates * 4 +
        nutritionFallback.fats * 9 = 335
    ∧ pyAbs (nutritionFallback.calories - 335) ≤ 50
    ∧ verify_nutrition_values nutritionFallback = ⟨0.9, Status.PASS, []⟩ :=
  C10_fallback_undetected ['x'] rfl

/-- C4 counterexample: the planning response consisting of the two
characters `{}` parses successfully (no fallback is substituted), yet
the run raises a `KeyError` on the missing `food_items` key — an
extraction shape failure that propagates to the caller even though no
transport/response error occurred. -/
theorem C4_counterexample :
    (analyze_image_and_plan ['{', '}']).2 = false
    ∧ (analyze_food_image (Except.ok ['{', '}']) (Except.ok []) (Except.ok [])
        (Except.ok [])).2 = Except.error (PyError.keyError "food_items".toList) :=
  ⟨rfl, rfl⟩

/-- C4 (amended): in all four stages, a response with no parseable
embedded JSON in the delimiter slice is absorbed locally by
substituting the stage's fallback value (and the Planning fallback
then maps to food items without error); but a shape failure of a
successfully parsed value is not in general absorbed — the Planning
stage performs no shape check, and a response parsing to a JSON object
lacking the expected plan keys is returned as-is, making the
orchestrator's food-item mapping raise an error that propagates
(shown generally here and end-to-end by the counterexample).  The
parse-failure paths below never reach the record constructors, so none
of this depends on how the mapping of well-typed payloads is
modelled. -/
theorem C4_amended_fallback_absorption :
    (∀ resp, json_loads (objectSlice resp) = none →
      analyze_image_and_plan resp = (planningFallbackJson, true)
      ∧ analyze_nutrition resp = (nutritionFallback, true))
    ∧ (∀ resp, json_loads (arraySlice resp) = none →
      generate_recommendations resp = (healthFallback, true)
      ∧ suggest_complementary_foods resp = (mealFallback, true))
    ∧ buildFoodItems planningFallbackJson = Except.ok planningFallbackItems
    ∧ (∃ resp e, (analyze_image_and_plan resp).2 = false
      ∧ buildFoodItems (analyze_image_and_plan resp).1 = Except.error e) := by
  refine ⟨?_, ?_, rfl, ⟨['{', '}'], PyError.keyError "food_items".toList, rfl, rfl⟩⟩
  · intro resp h
    rw [analyze_image_and_plan, extract, h, analyze_nutrition, h]
    exact ⟨rfl, rfl⟩
  · intro resp h
    rw [generate_recommendations, h, suggest_complementary_foods, h]
    exact ⟨rfl, rfl⟩

/-- Witness for C4 (amended) at concrete inputs: the unparseable
response `x` triggers the planning, nutrition, health and meal
fallbacks. -/
theorem C4_amended_fallback_absorption_witness :
    (analyze_image_and_plan ['x'] = (planningFallbackJson, true)
      ∧ analyze_nutrition ['x'] = (nutritionFallback, true))
    ∧ (generate_recommendations ['x'] = (healthFallback, true)
      ∧ suggest_complementary_foods ['x'] = (mealFallback, true)) :=
  ⟨C4_amended_fallback_absorption.1 ['x'] rfl,
    C4_amended_fallback_absorption.2.1 ['x'] rfl⟩

/-- C5: on every successful run, the final confidence score equals the
mean of the pre-verification aggregate confidence and the verification
stage's overall confidence (two terms). -/
theorem C5_final_confidence (p n h m : Except PyError (List Char))
    (log : List LogEntry) (r : AnalysisResult)
    (heq : analyze_food_image p n h m = (log, Except.ok r)) :
    r.confidence_score =
      (preVerificationConfidence r.food_items +
        (verify_analysis ⟨r.food_items, r.nutrition, r.health_recommendations,
          r.meal_suggestions, preVerificationConfidence r.food_items,
          r.agent_coordination_log⟩).confidence) / 2 := by
  rw [analyze_food_image.eq_def] at heq
  cases p with
  | error e => injection heq with h1 h2; exact Except.noConfusion h2
  | ok ptext =>
    dsimp only at heq
    cases hfi : buildFoodItems (analyze_image_and_plan ptext).1 with
    | error e =>
      rw [hfi] at heq
      injection heq with h1 h2; exact Except.noConfusion h2
    | ok food_items =>
      rw [hfi] at heq
      dsimp only at heq
      cases n with
      | error e => injection heq with h1 h2; exact Except.noConfusion h2
      | ok ntext =>
        dsimp only at heq
        cases h with
        | error e => injection heq with h1 h2; exact Except.noConfusion h2
        | ok htext =>
          dsimp only at heq
          cases m with
          | error e => injection heq with h1 h2; exact Except.noConfusion h2
          | ok mtext =>
            dsimp only at heq
            injection heq with h1 h2
            injection h2 with h3
            subst h3
            rfl

/-- C9: whenever a stage raises, the orchestrator's log consists of the
entries made so far followed by exactly one error entry for the raised
error, and the same error is re-raised — no `AnalysisResult` is
returned. -/
theorem C9_error_logging (p n h m : Except PyError (List Char))
    (log : List LogEntry) (e : PyError)
    (heq : analyze_food_image p n h m = (log, Except.error e)) :
    ∃ pref, log = pref ++ [LogEntry.workflowError e]
      ∧ ∀ e0, LogEntry.workflowError e0 ∉ pref := by
  rw [analyze_food_image.eq_def] at heq
  cases p with
  | error e1 =>
    injection heq with h1 h2
    injection h2 with h3
    subst h3
    exact ⟨_, h1.symm, by simp⟩
  | ok ptext =>
    dsimp only at heq
    cases hfi : buildFoodItems (analyze_image_and_plan ptext).1 with
    | error e1 =>
      rw [hfi] at heq
      injection heq with h1 h2
      injection h2 with h3
      subst h3
      exact ⟨_, h1.symm, by simp⟩
    | ok food_items =>
      rw [hfi] at heq
      dsimp only at heq
      cases n with
      | error e1 =>
        injection heq with h1 h2
        injection h2 with h3
        subst h3
        exact ⟨_, h1.symm, by simp⟩
      | ok ntext =>
        dsimp only at heq
        cases h with
        | error e1 =>
          injection heq with h1 h2
          injection h2 with h3
          subst h3
          exact ⟨_, h1.symm, by simp⟩
        | ok htext =>
          dsimp only at heq
          cases m with
          | error e1 =>
            injection heq with h1 h2
            injection h2 with h3
            subst h3
            exact ⟨_, h1.symm, by simp⟩
          | ok mtext =>
            dsimp only at heq
            injection heq with h1 h2
            exact Except.noConfusion h2

/-- Witness for C9 at a concrete failing run: a transport error in the
planning stage is logged once after the planning entry and re-raised. -/
theorem C9_error_logging_witness :
    ∃ pref, [LogEntry.planningStep,
        LogEntry.workflowError (PyError.apiError 500 [])] =
      pref ++ [LogEntry.workflowError (PyError.apiError 500 [])]
      ∧ ∀ e0, LogEntry.workflowError e0 ∉ pref :=
  C9_error_logging (Except.error (PyError.apiError 500 [])) (Except.ok [])
    (Except.ok []) (Except.ok [])
    [LogEntry.planningStep, LogEntry.workflowError (PyError.apiError 500 [])]
    (PyError.apiError 500 []) rfl

/-- The result of the concrete successful run in which every stage
receives the unparseable response `x` and falls back. -/
def exRunResult : AnalysisResult :=
  match (analyze_food_image (Except.ok ['x']) (Except.ok ['x']) (Except.ok ['x'])
      (Except.ok ['x'])).2 with
  | Except.ok r => r
  | Except.error _ => ⟨[], nutritionFallback, [], [], 0, []⟩

/-- Witness for C5 at the concrete successful all-fallback run. -/
theorem C5_final_confidence_witness :
    exRunResult.confidence_score =
      (preVerificationConfidence exRunResult.food_items +
        (verify_analysis ⟨exRunResult.food_items, exRunResult.nutrition,
          exRunResult.health_recommendations, exRunResult.meal_suggestions,
          preVerificationConfidence exRunResult.food_items,
          exRunResult.agent_coordination_log⟩).confidence) / 2 :=
  C5_final_confidence (Except.ok ['x']) (Except.ok ['x']) (Except.ok ['x'])
    (Except.ok ['x'])
    (analyze_food_image (Except.ok ['x']) (Except.ok ['x']) (Except.ok ['x'])
      (Except.ok ['x'])).1
    exRunResult rfl

end FoodAnalysis
